import Mathlib

/-!
Verification of the jira command-line client (jiracmdline.py).

The program is a one-shot CLI: it resolves connection settings from
command-line options and an INI config file, gathers a ticket-id list from
positional arguments and (when stdin is not a terminal) stdin lines,
validates flag combinations, and then dispatches to listing, user search,
or ticket modification against a remote tracker.

We embed the program shallowly: the tracker is a record of response
functions, and every run is modelled as the ordered list of tracker calls
it performs, the ordered list of lines it prints, and an optional fatal
error (SystemExit in the source).
-/

/-- Single-quote character as a string (used in several printed messages). -/
def sQuote : String := String.singleton (Char.ofNat 39)

/-- Python truthiness of an optional string option: argparse leaves an
unset string option as None (here none); an empty string is also falsy. -/
def strTruthy : Option String → Bool
  | none => false
  | some s => s != ""

/-- The command-line flags of the program (argparse options other than the
connection options and the positional ticket list). The source defines a
list flag but never reads it after parsing; likewise debug. -/
structure Flags where
  list : Bool := false
  list_all : Bool := false
  cat : Bool := false
  comment : Option String := none
  resolve : Bool := false
  take : Bool := false
  give : Bool := false
  givetouser : Option String := none
  usersearch : Option String := none
  debug : Bool := false
deriving DecidableEq

/-- The four connection options, as they appear on the command line (each
possibly absent) and as the recognized keys of the Connection section of
the config file (each possibly absent from the file). -/
structure ConnOpts where
  jiraserver : Option String := none
  jirauser : Option String := none
  jirapass : Option String := none
  jiraproject : Option String := none
deriving DecidableEq

/-- The fatal-error kinds raised via SystemExit in the source:
MissingSetting k  = "Missing required option k" / "Missing jira password",
GiveRequiresTarget = "Givetouser is required with the Give option",
ModificationRequiresTickets = "Ticket list required when using Modification Options",
InvalidUser n = "Invalid user: n". -/
inductive Err where
  | MissingSetting (name : String)
  | GiveRequiresTarget
  | ModificationRequiresTickets
  | InvalidUser (name : String)
deriving DecidableEq

/-- ConfigResolver step for one of jiraserver, jirauser, jiraproject
(parse_cmdline lines 96-101): keep a truthy command-line value; otherwise
fall back to the config-file value when the key is present (even if the
file value is empty); otherwise fail. -/
def resolveSetting (name : String) (cli cfg : Option String) : Except Err String :=
  if strTruthy cli then .ok (cli.getD "")
  else
    match cfg with
    | some v => .ok v
    | none => .error (.MissingSetting name)

/-- Password resolution (parse_cmdline lines 102-109): truthy command-line
value; else config-file value when the jirapass key is present; else an
interactive prompt, but only when stdin is a terminal; else fail. -/
def resolvePassword (cli cfg : Option String) (stdinIsInteractive : Bool)
    (prompted : String) : Except Err String :=
  if strTruthy cli then .ok (cli.getD "")
  else
    match cfg with
    | some v => .ok v
    | none =>
      if stdinIsInteractive then .ok prompted
      else .error (.MissingSetting "jirapass")

/-- InputCollector (parse_cmdline lines 113-117): the positional ids, and,
exactly when stdin is not a terminal, every stdin line appended after them
in order (the source appends the lines unstripped; stdinLines here are the
raw lines as the fileinput iteration yields them). -/
def collect (positional : List String) (stdinIsInteractive : Bool)
    (stdinLines : List String) : List String :=
  if stdinIsInteractive then positional else positional ++ stdinLines

/-- True when any Modification option is set (parse_cmdline line 119 and
the main dispatch line 213 test the same four options). -/
def isMod (f : Flags) : Bool :=
  strTruthy f.comment || f.resolve || f.take || f.give

/-- The validated intent of an invocation (spec section 3). -/
inductive Intent where
  | ListMine
  | ListAll
  | ListOrCatTickets (ids : List String)
  | SearchUsers (name : String)
  | ModifyTickets (ids : List String)
deriving DecidableEq

/-- IntentValidator: the validation checks of parse_cmdline lines 110-121
followed by the dispatch decision of the main block lines 213-225, as a
function of the flags and the already-collected ticket list. Note the
source never reads the list flag: the mine-listing is the default. -/
def classify (f : Flags) (tickets : List String) : Except Err Intent :=
  if f.give && !strTruthy f.givetouser then .error .GiveRequiresTarget
  else if isMod f && tickets.length < 1 then .error .ModificationRequiresTickets
  else if isMod f then .ok (.ModifyTickets tickets)
  else if strTruthy f.usersearch then .ok (.SearchUsers (f.usersearch.getD ""))
  else if tickets.length > 0 then .ok (.ListOrCatTickets tickets)
  else if f.list_all then .ok .ListAll
  else .ok .ListMine

/-- A user record as returned by the tracker user search; the source only
inspects the name attribute. -/
structure JUser where
  name : String
deriving DecidableEq

/-- A comment record as fetched by conn.comment; the source prints
updateAuthor and body. -/
structure JComment where
  updateAuthor : String
  body : String
deriving DecidableEq

/-- An issue record; the source reads key, fields.summary,
fields.description and fields.comment.comments (here commentIds). -/
structure Issue where
  key : String
  summary : String
  description : String
  commentIds : List String
deriving DecidableEq

/-- The tracker client capability: the response behaviour of the remote
server, as pure response functions. -/
structure Tracker where
  issue : String → Issue
  getComment : String → String → JComment
  searchUsers : String → List JUser
  searchIssues : String → List Issue

/-- One tracker call, in the order the program performs them. -/
inductive Call where
  | fetchIssue (id : String)
  | getComment (issueKey cid : String)
  | searchIssues (query : String)
  | searchUsers (name : String)
  | addComment (issueKey text : String)
  | assignIssue (issueKey user : String)
  | transitionIssue (issueKey state : String)
deriving DecidableEq

/-- Python format spec {0:8s}: left-justify, pad with spaces to width 8. -/
def fmt8 (s : String) : String := s.pushn ' ' (8 - s.length)

/-- The 50-dash rule line used by the verbose (cat) rendering. -/
def sepLine : String := String.mk (List.replicate 50 '-')

/-- print_issue (source lines 158-175): verbose block when cat is set
(fetching every comment from the tracker), else the one-line summary
rendering. Returns the tracker calls made and the printed strings. -/
def print_issue (f : Flags) (tr : Tracker) (issue : Issue) :
    List Call × List String :=
  if f.cat then
    let fetched := issue.commentIds.map
      (fun cid => (Call.getComment issue.key cid, tr.getComment issue.key cid))
    let comments := sepLine :: fetched.foldr
      (fun p acc => (p.2.updateAuthor ++ "\n" ++ p.2.body) :: sepLine :: acc) []
    (fetched.map Prod.fst,
     ["Ticket: " ++ issue.key ++ "\nSummary: " ++ issue.summary ++
      "\nDescription: " ++ issue.description ++ "\nComments: \n" ++
      String.intercalate "\n" comments ++ "\n"])
  else
    ([], [fmt8 issue.key ++ "  " ++ issue.summary])

/-- Confirmation line of assign_issue (source line 184). -/
def modAssignMsg (u : String) : String :=
  "Assigned issue to user " ++ sQuote ++ u ++ sQuote

/-- Confirmation line of resolve_issue (source line 189). -/
def resolvedMsg : String := "New state " ++ sQuote ++ "resolved" ++ sQuote

/-- is_valid_user (source lines 134-138): some record returned by the user
search has exactly the requested name. -/
def is_valid_user (tr : Tracker) (name : String) : Bool :=
  (tr.searchUsers name).any (fun u => u.name == name)

/-- The body of the do_modify loop for one ticket id (source lines
193-206): fetch, print, then comment, take, give (revalidating the target
via a user search and aborting with InvalidUser when no exact match
exists), resolve, and a final blank line. Returns calls made, lines
printed, and the fatal error if one was raised. -/
def modify_one (f : Flags) (jirauser : String) (tr : Tracker) (tid : String) :
    List Call × List String × Option Err :=
  let issue := tr.issue tid
  let p := print_issue f tr issue
  let cCalls := if strTruthy f.comment then [Call.addComment issue.key (f.comment.getD "")] else []
  let cOut := if strTruthy f.comment then ["Added comment: " ++ f.comment.getD ""] else []
  let tCalls := if f.take then [Call.assignIssue issue.key jirauser] else []
  let tOut := if f.take then [modAssignMsg jirauser] else []
  let rCalls := if f.resolve then [Call.transitionIssue issue.key "5"] else []
  let rOut := if f.resolve then [resolvedMsg] else []
  if f.give then
    let gto := f.givetouser.getD ""
    if is_valid_user tr gto then
      (Call.fetchIssue tid :: p.1 ++ cCalls ++ tCalls ++
         (Call.searchUsers gto :: Call.assignIssue issue.key gto :: rCalls),
       p.2 ++ cOut ++ tOut ++ (modAssignMsg gto :: rOut) ++ [""], none)
    else
      (Call.fetchIssue tid :: p.1 ++ cCalls ++ tCalls ++ [Call.searchUsers gto],
       p.2 ++ cOut ++ tOut, some (.InvalidUser gto))
  else
    (Call.fetchIssue tid :: p.1 ++ cCalls ++ tCalls ++ rCalls,
     p.2 ++ cOut ++ tOut ++ rOut ++ [""], none)

/-- do_modify (source lines 192-206): the loop over the ticket list, in
list order; a SystemExit (InvalidUser) aborts the whole invocation. -/
def do_modify (f : Flags) (jirauser : String) (tr : Tracker) :
    List String → List Call × List String × Option Err
  | [] => ([], [], none)
  | tid :: rest =>
    match modify_one f jirauser tr tid with
    | (c, o, some e) => (c, o, some e)
    | (c, o, none) =>
      match do_modify f jirauser tr rest with
      | (c2, o2, e2) => (c ++ c2, o ++ o2, e2)

/-- The search query built by do_search (source lines 141-151). -/
def searchQuery (f : Flags) (project : String) : String :=
  if f.list_all then
    "project=" ++ project ++ " and status in (\"open\")"
  else
    "assignee=currentUser() and project=" ++ project ++
      " and status in (\"open\",\"in progress\")"

/-- The listing branch of the main block (source lines 218-225): fetch the
given tickets, or search and refetch every hit by key; then print each
issue. All fetches happen before any printing. -/
def do_list (f : Flags) (tr : Tracker) (project : String)
    (tickets : List String) : List Call × List String :=
  let fetched :=
    if tickets.length > 0 then
      (tickets.map Call.fetchIssue, tickets.map tr.issue)
    else
      let q := searchQuery f project
      let hits := tr.searchIssues q
      (Call.searchIssues q :: hits.map (fun i => Call.fetchIssue i.key),
       hits.map (fun i => tr.issue i.key))
  let printed := fetched.2.map (fun i => print_issue f tr i)
  (fetched.1 ++ printed.foldr (fun p acc => p.1 ++ acc) [],
   printed.foldr (fun p acc => p.2 ++ acc) [])

/-- The user-search branch prints a pprint dump of the matched records;
the dump format is abstracted as one entry per matched user name. -/
def userDump (us : List JUser) : List String := us.map (fun u => u.name)

/-- A whole invocation as given on the command line. -/
structure Invocation where
  flags : Flags := {}
  conn : ConnOpts := {}
  positional : List String := []

/-- The connection-resolution prefix of parse_cmdline (lines 89-109), in
source order: jiraserver, jirauser, jiraproject, then the password. -/
def resolveAll (cliConn cfg : ConnOpts) (stdinIsInteractive : Bool)
    (prompted : String) : Except Err (String × String × String × String) := do
  let server ← resolveSetting "jiraserver" cliConn.jiraserver cfg.jiraserver
  let user ← resolveSetting "jirauser" cliConn.jirauser cfg.jirauser
  let project ← resolveSetting "jiraproject" cliConn.jiraproject cfg.jiraproject
  let pass ← resolvePassword cliConn.jirapass cfg.jirapass stdinIsInteractive prompted
  pure (server, user, project, pass)

/-- The whole program: parse_cmdline (config resolution, validation, stdin
collection) followed by the main dispatch. cfg holds the recognized keys
of the Connection section of the config file; prompted is what an
interactive password prompt would read; the result is the ordered tracker
calls, the printed lines, and the fatal error if one was raised. -/
def program (inv : Invocation) (cfg : ConnOpts) (stdinIsInteractive : Bool)
    (stdinLines : List String) (prompted : String) (tr : Tracker) :
    List Call × List String × Option Err :=
  match resolveAll inv.conn cfg stdinIsInteractive prompted with
  | .error e => ([], [], some e)
  | .ok (_server, user, project, _pass) =>
    let f := inv.flags
    if f.give && !strTruthy f.givetouser then ([], [], some .GiveRequiresTarget)
    else
      let tickets := collect inv.positional stdinIsInteractive stdinLines
      if isMod f && tickets.length < 1 then ([], [], some .ModificationRequiresTickets)
      else if isMod f then do_modify f user tr tickets
      else if strTruthy f.usersearch then
        ([Call.searchUsers (f.usersearch.getD "")],
         userDump (tr.searchUsers (f.usersearch.getD "")), none)
      else
        let r := do_list f tr project tickets
        (r.1, r.2, none)

/-- A small concrete tracker used for concrete evaluations: every fetch
succeeds with a bare issue, user searches return nothing. -/
def tr0 : Tracker where
  issue := fun tid => { key := tid, summary := "sum", description := "", commentIds := [] }
  getComment := fun _ _ => { updateAuthor := "", body := "" }
  searchUsers := fun _ => []
  searchIssues := fun _ => []

/-- C1: the source never rejects resolve-without-comment. At the failing
input (resolve set, no comment text, a non-empty ticket list) classify
resolves ModifyTickets, and the run transitions the ticket to resolved
without adding any comment — although the help text of the resolve option
states that a comment is required. -/
theorem C1_resolve_without_comment_not_rejected :
    classify { resolve := true } ["TICK-1"] = .ok (.ModifyTickets ["TICK-1"]) ∧
    (do_modify { resolve := true } "alice" tr0 ["TICK-1"]).2.2 = none ∧
    Call.transitionIssue "TICK-1" "5" ∈ (do_modify { resolve := true } "alice" tr0 ["TICK-1"]).1 ∧
    ∀ k t, Call.addComment k t ∉ (do_modify { resolve := true } "alice" tr0 ["TICK-1"]).1 := by
  have hcalls : (do_modify { resolve := true } "alice" tr0 ["TICK-1"]).1 =
      [Call.fetchIssue "TICK-1", Call.transitionIssue "TICK-1" "5"] := rfl
  refine ⟨rfl, rfl, ?_, ?_⟩
  · rw [hcalls]; simp
  · intro k t h
    rw [hcalls] at h
    simp at h

/-- C2: InputCollector.collect starts from the positional ids in given
order and, exactly when stdin is not an interactive terminal, appends
every stdin line after them in order; the two concrete examples of the
spec follow. -/
theorem C2_collect_appends_stdin :
    (∀ pos lines, collect pos false lines = pos ++ lines) ∧
    (∀ pos lines, collect pos true lines = pos) ∧
    collect [] false ["X-1", "X-2"] = ["X-1", "X-2"] ∧
    (∀ lines, collect ["Y-1"] true lines = ["Y-1"]) :=
  ⟨fun _ _ => rfl, fun _ _ => rfl, rfl, fun _ => rfl⟩

/-- C3 counterexample: with give set and give_to_user empty, an invocation
that also sets list and a non-empty ticket list fails GiveRequiresTarget
instead of resolving the ModifyTickets intent. -/
theorem C3_counterexample :
    classify { list := true, give := true } ["T-1"] = .error .GiveRequiresTarget ∧
    classify { list := true, give := true } ["T-1"] ≠ .ok (.ModifyTickets ["T-1"]) :=
  ⟨rfl, fun h => Except.noConfusion h⟩

/-- C3 (amended): when any of comment, resolve, take, give is set, classify
never resolves ListOrCatTickets; and with a non-empty ticket list, provided
the GiveRequiresTarget check does not fire (give set implies a non-empty
give_to_user), the resolved intent is exactly ModifyTickets. -/
theorem C3_mutation_precedence (f : Flags) (tickets : List String)
    (hmod : isMod f = true) :
    (∀ ids, classify f tickets ≠ .ok (.ListOrCatTickets ids)) ∧
    (tickets ≠ [] → (f.give = true → strTruthy f.givetouser = true) →
      classify f tickets = .ok (.ModifyTickets tickets)) := by
  constructor
  · intro ids
    by_cases hg : (f.give && !strTruthy f.givetouser) = true
    · simp [classify, hg]
    · by_cases hlen : (tickets.length < 1)
      · simp [classify, hg, hlen, hmod]
      · simp [classify, hg, hlen, hmod]
  · intro hne hgive
    have hg : (f.give && !strTruthy f.givetouser) = false := by
      cases hgv : f.give
      · simp
      · simp [hgive hgv]
    have hlen : ¬ (tickets.length < 1) := by
      simp [Nat.lt_one_iff, List.length_eq_zero, hne]
    simp [classify, hg, hlen, hmod]

/-- C3 witness: with list and comment both set and a non-empty ticket
list, the resolved intent is ModifyTickets. -/
theorem C3_mutation_precedence_witness :
    isMod { list := true, comment := some "x" } = true ∧
    classify { list := true, comment := some "x" } ["T-1"] = .ok (.ModifyTickets ["T-1"]) :=
  ⟨rfl, (C3_mutation_precedence { list := true, comment := some "x" } ["T-1"] rfl).2
    (by decide) (fun h => Bool.noConfusion h)⟩

/-- C4 counterexample: give alone is a modification flag, and with an
empty ticket list (and necessarily no give_to_user) classify fails
GiveRequiresTarget, not ModificationRequiresTickets. -/
theorem C4_counterexample :
    classify { give := true } [] = .error .GiveRequiresTarget ∧
    classify { give := true } [] ≠ .error .ModificationRequiresTickets :=
  ⟨rfl, fun h => by injection h with h2; exact Err.noConfusion h2⟩

/-- C4 (amended): when any of comment, resolve, take, give is set and the
collected ticket list is empty, classify fails ModificationRequiresTickets,
provided the earlier GiveRequiresTarget check does not fire (give set
implies a non-empty give_to_user). -/
theorem C4_mod_requires_tickets (f : Flags)
    (hmod : isMod f = true)
    (hgive : f.give = true → strTruthy f.givetouser = true) :
    classify f [] = .error .ModificationRequiresTickets := by
  have hg : (f.give && !strTruthy f.givetouser) = false := by
    cases hgv : f.give
    · simp
    · simp [hgive hgv]
  simp [classify, hg, hmod]

/-- C4 witness: comment set with an empty ticket list fails
ModificationRequiresTickets. -/
theorem C4_mod_requires_tickets_witness :
    isMod { comment := some "x" } = true ∧
    classify { comment := some "x" } [] = .error .ModificationRequiresTickets :=
  ⟨rfl, C4_mod_requires_tickets { comment := some "x" } rfl (fun h => Bool.noConfusion h)⟩

/-- C5: whenever give is set and give_to_user is empty, classify fails
GiveRequiresTarget, for every combination of the other flags and every
ticket list (the check precedes the ModificationRequiresTickets check). -/
theorem C5_give_requires_target (f : Flags) (tickets : List String)
    (hg : f.give = true) (ht : strTruthy f.givetouser = false) :
    classify f tickets = .error .GiveRequiresTarget := by
  simp [classify, hg, ht]

/-- C5 witness: give set with no target fails GiveRequiresTarget even on a
non-empty ticket list. -/
theorem C5_give_requires_target_witness :
    ({ give := true } : Flags).give = true ∧
    strTruthy ({ give := true } : Flags).givetouser = false ∧
    classify { give := true } ["A-1"] = .error .GiveRequiresTarget :=
  ⟨rfl, rfl, C5_give_requires_target { give := true } ["A-1"] rfl rfl⟩

/-- C6: for each of the jiraserver, jirauser, jiraproject settings, a
present non-empty command-line value wins; otherwise the config-file value
is taken when its key is present; otherwise resolution fails with
MissingSetting for that name; and the concrete merge of a command-line
server A over a config-file server B yields A. -/
theorem C6_resolve_setting_priority (name v : String) (cli cfg : Option String) :
    (cli = some v → v ≠ "" → resolveSetting name cli cfg = .ok v) ∧
    (strTruthy cli = false → cfg = some v → resolveSetting name cli cfg = .ok v) ∧
    (strTruthy cli = false → cfg = none →
      resolveSetting name cli cfg = .error (.MissingSetting name)) ∧
    resolveSetting "jiraserver" (some "A") (some "B") = .ok "A" := by
  refine ⟨?_, ?_, ?_, rfl⟩
  · rintro rfl hv
    simp [resolveSetting, strTruthy, hv]
  · intro hc hcfg
    simp [resolveSetting, hc, hcfg]
  · intro hc hcfg
    simp [resolveSetting, hc, hcfg]

/-- C6 witness: the command-line server value A overrides the config-file
value B. -/
theorem C6_resolve_setting_priority_witness :
    resolveSetting "jiraserver" (some "A") (some "B") = .ok "A" :=
  (C6_resolve_setting_priority "jiraserver" "A" (some "A") (some "B")).1 rfl (by decide)

/-- C7: password resolution takes a present non-empty command-line value;
else the config-file value when its key is present; else, only when stdin
is an interactive terminal, the interactively prompted value; in every
other case it fails with MissingSetting for the password. -/
theorem C7_password_resolution (cli cfg : Option String) (isatty : Bool)
    (prompted v : String) :
    (cli = some v → v ≠ "" → resolvePassword cli cfg isatty prompted = .ok v) ∧
    (strTruthy cli = false → cfg = some v →
      resolvePassword cli cfg isatty prompted = .ok v) ∧
    (strTruthy cli = false → cfg = none → isatty = true →
      resolvePassword cli cfg isatty prompted = .ok prompted) ∧
    (strTruthy cli = false → cfg = none → isatty = false →
      resolvePassword cli cfg isatty prompted = .error (.MissingSetting "jirapass")) := by
  refine ⟨?_, ?_, ?_, ?_⟩
  · rintro rfl hv
    simp [resolvePassword, strTruthy, hv]
  · intro hc hcfg
    simp [resolvePassword, hc, hcfg]
  · intro hc hcfg hatty
    simp [resolvePassword, hc, hcfg, hatty]
  · intro hc hcfg hatty
    simp [resolvePassword, hc, hcfg, hatty]

/-- C7 witness: no command-line password, no config-file password, and a
non-interactive stdin fail with the missing-password error. -/
theorem C7_password_resolution_witness :
    strTruthy (none : Option String) = false ∧
    resolvePassword none none false "" = .error (.MissingSetting "jirapass") :=
  ⟨rfl, (C7_password_resolution none none false "" "x").2.2.2 rfl rfl rfl⟩

/-- Rendering an issue performs no assignment call: its tracker calls are
comment fetches only. -/
theorem print_issue_no_assign (f : Flags) (tr : Tracker) (i : Issue) (k u : String) :
    Call.assignIssue k u ∉ (print_issue f tr i).1 := by
  by_cases hc : f.cat
  · simp [print_issue, hc]
  · simp [print_issue, hc]

/-- C8 counterexample: with take also set and the configured user equal to
the give target, the take assignment for that user is performed before the
give validation aborts with InvalidUser. -/
theorem C8_counterexample :
    (do_modify { take := true, give := true, givetouser := some "bob" } "bob" tr0 ["T-1"]).2.2
      = some (.InvalidUser "bob") ∧
    Call.assignIssue "T-1" "bob" ∈
      (do_modify { take := true, give := true, givetouser := some "bob" } "bob" tr0 ["T-1"]).1 := by
  have hcalls :
      (do_modify { take := true, give := true, givetouser := some "bob" } "bob" tr0 ["T-1"]).1
      = [Call.fetchIssue "T-1", Call.assignIssue "T-1" "bob", Call.searchUsers "bob"] := rfl
  exact ⟨rfl, by rw [hcalls]; simp⟩

/-- C8 (amended): during ModifyTickets with give set, the target is
revalidated per ticket via a user search requiring an exact name match;
when the search has no exact match the invocation fails with InvalidUser,
and no assignment call with the target user is made — except that a take
action may independently assign the configured user, which can coincide
with the target; when take is unset or the configured user differs from
the target, no assignIssue call for the target occurs. -/
theorem C8_invalid_user_aborts (f : Flags) (ju : String) (tr : Tracker)
    (tid : String) (rest : List String)
    (hg : f.give = true)
    (hnm : is_valid_user tr (f.givetouser.getD "") = false)
    (hind : f.take = false ∨ ju ≠ f.givetouser.getD "") :
    (do_modify f ju tr (tid :: rest)).2.2 = some (.InvalidUser (f.givetouser.getD "")) ∧
    ∀ k, Call.assignIssue k (f.givetouser.getD "") ∉ (do_modify f ju tr (tid :: rest)).1 := by
  have hone : modify_one f ju tr tid =
      (Call.fetchIssue tid :: (print_issue f tr (tr.issue tid)).1 ++
        (if strTruthy f.comment then [Call.addComment (tr.issue tid).key (f.comment.getD "")] else []) ++
        (if f.take then [Call.assignIssue (tr.issue tid).key ju] else []) ++
        [Call.searchUsers (f.givetouser.getD "")],
       (print_issue f tr (tr.issue tid)).2 ++
        (if strTruthy f.comment then ["Added comment: " ++ f.comment.getD ""] else []) ++
        (if f.take then [modAssignMsg ju] else []),
       some (.InvalidUser (f.givetouser.getD ""))) := by
    simp [modify_one, hg, hnm]
  constructor
  · simp [do_modify, hone]
  · intro k
    simp only [do_modify, hone]
    simp only [List.cons_append, List.append_assoc, List.mem_cons, List.mem_append,
      List.mem_singleton]
    rintro (h | h | h | h | h | h)
    · exact Call.noConfusion h
    · exact print_issue_no_assign f tr (tr.issue tid) k (f.givetouser.getD "") h
    · by_cases hcm : strTruthy f.comment = true
      · simp [hcm] at h
      · simp [hcm] at h
    · rcases hind with htake | hju
      · simp [htake] at h
      · by_cases htk : f.take = true
        · simp only [htk, if_true, List.mem_singleton] at h
          exact hju (Call.assignIssue.inj h).2.symm
        · simp [htk] at h
    · exact Call.noConfusion h
    · simp at h

/-- C8 witness: give to an unknown user aborts the run with InvalidUser
and performs no assignment call for that user. -/
theorem C8_invalid_user_aborts_witness :
    ({ give := true, givetouser := some "bob" } : Flags).give = true ∧
    is_valid_user tr0 "bob" = false ∧
    ((do_modify { give := true, givetouser := some "bob" } "alice" tr0 ["T-1"]).2.2
        = some (.InvalidUser "bob") ∧
      ∀ k, Call.assignIssue k "bob" ∉
        (do_modify { give := true, givetouser := some "bob" } "alice" tr0 ["T-1"]).1) := by
  refine ⟨rfl, rfl, ?_⟩
  exact C8_invalid_user_aborts { give := true, givetouser := some "bob" } "alice" tr0 "T-1" []
    rfl rfl (Or.inr (by decide))

/-- C9: do_modify processes tickets in list order; an empty list does
nothing, and on the first ticket, when the give validation does not abort,
the behaviour is exactly: fetch the ticket, render it, then add-comment,
take, give (a user search then the assignment), resolve, in this fixed
order, each action emitting its one-line confirmation, followed by the
trailing blank line and then the run of the remaining tickets. -/
theorem C9_modify_order (f : Flags) (ju : String) (tr : Tracker)
    (tid : String) (rest : List String)
    (hgv : f.give = true → is_valid_user tr (f.givetouser.getD "") = true) :
    do_modify f ju tr [] = ([], [], none) ∧
    do_modify f ju tr (tid :: rest) =
      ((Call.fetchIssue tid :: (print_issue f tr (tr.issue tid)).1)
        ++ (if strTruthy f.comment then [Call.addComment (tr.issue tid).key (f.comment.getD "")] else [])
        ++ (if f.take then [Call.assignIssue (tr.issue tid).key ju] else [])
        ++ (if f.give then [Call.searchUsers (f.givetouser.getD ""),
              Call.assignIssue (tr.issue tid).key (f.givetouser.getD "")] else [])
        ++ (if f.resolve then [Call.transitionIssue (tr.issue tid).key "5"] else [])
        ++ (do_modify f ju tr rest).1,
       (print_issue f tr (tr.issue tid)).2
        ++ (if strTruthy f.comment then ["Added comment: " ++ f.comment.getD ""] else [])
        ++ (if f.take then [modAssignMsg ju] else [])
        ++ (if f.give then [modAssignMsg (f.givetouser.getD "")] else [])
        ++ (if f.resolve then [resolvedMsg] else [])
        ++ [""]
        ++ (do_modify f ju tr rest).2.1,
       (do_modify f ju tr rest).2.2) := by
  refine ⟨rfl, ?_⟩
  rcases hrest : do_modify f ju tr rest with ⟨c2, o2, e2⟩
  by_cases hgc : f.give = true
  · have hv := hgv hgc
    simp [do_modify, modify_one, hgc, hv, hrest, List.append_assoc]
  · have hgc2 : f.give = false := by
      cases hgf : f.give
      · rfl
      · exact absurd hgf hgc
    simp [do_modify, modify_one, hgc2, hrest, List.append_assoc]

/-- C9 witness: the concrete scenario of the spec: a comment plus resolve
on TICK-9 fetches the ticket, renders its summary line, adds the comment,
transitions to resolved, and emits the two confirmation lines in that
order before the trailing blank line. -/
theorem C9_modify_order_witness :
    do_modify { comment := some "fixed", resolve := true } "alice" tr0 ["TICK-9"] =
      ([Call.fetchIssue "TICK-9", Call.addComment "TICK-9" "fixed",
        Call.transitionIssue "TICK-9" "5"],
       ["TICK-9    sum", "Added comment: fixed", resolvedMsg, ""], none) := by
  have h := (C9_modify_order { comment := some "fixed", resolve := true } "alice" tr0
      "TICK-9" [] (fun hc => Bool.noConfusion hc)).2
  rw [h]
  rfl

/-- Rendering is independent of the debug flag. -/
theorem print_issue_debug_irrel (l la c : Bool) (cm : Option String) (r t g : Bool)
    (gt us : Option String) (b₁ b₂ : Bool) (tr : Tracker) (i : Issue) :
    print_issue ⟨l, la, c, cm, r, t, g, gt, us, b₁⟩ tr i =
    print_issue ⟨l, la, c, cm, r, t, g, gt, us, b₂⟩ tr i := rfl

/-- Ticket modification is independent of the debug flag. -/
theorem do_modify_debug_irrel (l la c : Bool) (cm : Option String) (r t g : Bool)
    (gt us : Option String) (b₁ b₂ : Bool) (ju : String) (tr : Tracker)
    (tickets : List String) :
    do_modify ⟨l, la, c, cm, r, t, g, gt, us, b₁⟩ ju tr tickets =
    do_modify ⟨l, la, c, cm, r, t, g, gt, us, b₂⟩ ju tr tickets := by
  induction tickets with
  | nil => rfl
  | cons tid rest ih =>
    simp only [do_modify, ih]
    rw [show modify_one ⟨l, la, c, cm, r, t, g, gt, us, b₁⟩ ju tr tid =
          modify_one ⟨l, la, c, cm, r, t, g, gt, us, b₂⟩ ju tr tid from rfl]

/-- Listing is independent of the debug flag. -/
theorem do_list_debug_irrel (l la c : Bool) (cm : Option String) (r t g : Bool)
    (gt us : Option String) (b₁ b₂ : Bool) (tr : Tracker) (project : String)
    (tickets : List String) :
    do_list ⟨l, la, c, cm, r, t, g, gt, us, b₁⟩ tr project tickets =
    do_list ⟨l, la, c, cm, r, t, g, gt, us, b₂⟩ tr project tickets := by
  simp only [do_list, searchQuery,
    print_issue_debug_irrel l la c cm r t g gt us b₁ b₂ tr]

/-- C10: the debug flag never influences behaviour: two whole-program runs
whose flags, connection options, positional ids, config file, stdin,
prompted password and tracker responses are identical except for debug
produce the same tracker-call sequence, the same printed lines and the
same exit outcome (the source parses debug but never reads it). -/
theorem C10_debug_has_no_effect (fl : Flags) (co : ConnOpts) (pos : List String)
    (cfg : ConnOpts) (isatty : Bool) (stdinLines : List String) (prompted : String)
    (tr : Tracker) (b₁ b₂ : Bool) :
    program ⟨{ fl with debug := b₁ }, co, pos⟩ cfg isatty stdinLines prompted tr =
    program ⟨{ fl with debug := b₂ }, co, pos⟩ cfg isatty stdinLines prompted tr := by
  cases fl with
  | mk l la c cm r t g gt us d =>
    simp only [program, isMod,
      do_modify_debug_irrel l la c cm r t g gt us b₁ b₂,
      do_list_debug_irrel l la c cm r t g gt us b₁ b₂]
